import Mathlib

/-
Verification development for the PrivateVideoCall repository.

Part 1 embeds the ledger contract `src/contracts/PrivateVideoCall.sol` as a
pure state-transition system: each external function becomes a Lean function
from the caller address, its arguments, the block timestamp where the source
reads `block.timestamp`, and the contract state, to `Except String` of the new
state plus the emitted events (a revert is an `error`, leaving the state
unchanged).  Solidity mappings become total functions with the zero-value
default; the FHE-encrypted integers (`euint32`/`euint64`) are carried as their
plaintext numeric payloads, since the contract only stores and forwards them.
`keccak256(abi.encodePacked(sender, recipient, timestamp))` is modelled as the
injective packing of its three inputs, which preserves exactly the property
the contract relies on: equal inputs give an equal invite id.

Part 2 embeds the browser client `src/app.js` (class PrivateVideoCallApp):
its mutable fields become the record `Client.AppState`, its event listeners
and button handlers become pure step functions that also report the list of
ledger transactions they submit.  DOM writes are dropped; media capture
success/failure and transaction confirmation success/failure enter as boolean
parameters since they come from the environment.
-/

namespace Contract

/-- Account addresses, abstracted to naturals; `0` is the zero address. -/
abbrev Address := Nat

/-- `bytes32` invite ids.  The source derives them as
`keccak256(abi.encodePacked(msg.sender, _recipient, block.timestamp))`;
we model the hash as the injective packing of those three inputs. -/
abbrev InviteId := Address × Address × Nat

/-- `keccak256(abi.encodePacked(sender, recipient, timestamp))` of
`inviteToCall` (src/contracts/PrivateVideoCall.sol:116). -/
def computeInviteId (sender recipient : Address) (timestamp : Nat) : InviteId :=
  (sender, recipient, timestamp)

/-- struct VideoCall (src/contracts/PrivateVideoCall.sol:12-22). -/
structure VideoCall where
  initiator : Address
  recipient : Address
  encryptedCallKey : Nat
  encryptedSignalingData : Nat
  isActive : Bool
  isConnected : Bool
  startTime : Nat
  endTime : Nat
  encryptedMetadata : Nat
deriving DecidableEq, Repr

/-- The zero value a Solidity mapping yields for a never-written key. -/
def VideoCall.zero : VideoCall :=
  ⟨0, 0, 0, 0, false, false, 0, 0, 0⟩

/-- struct CallInvitation (src/contracts/PrivateVideoCall.sol:24-31);
`from`/`to` are renamed `sender`/`recipient` (`from` is a Lean keyword). -/
structure CallInvitation where
  sender : Address
  recipient : Address
  encryptedInviteKey : Nat
  timestamp : Nat
  isAccepted : Bool
  isDeclined : Bool
deriving DecidableEq, Repr

/-- The zero value of `CallInvitation`. -/
def CallInvitation.zero : CallInvitation :=
  ⟨0, 0, 0, 0, false, false⟩

/-- struct UserProfile (src/contracts/PrivateVideoCall.sol:33-39). -/
structure UserProfile where
  isRegistered : Bool
  encryptedStatus : Nat
  encryptedPublicKey : Nat
  blockedUsers : Address → Bool
  trustedContacts : Address → Bool

/-- The zero value of `UserProfile`. -/
def UserProfile.zero : UserProfile :=
  ⟨false, 0, 0, fun _ => false, fun _ => false⟩

/-- The contract's storage (src/contracts/PrivateVideoCall.sol:9-44). -/
structure ContractState where
  owner : Address
  nextCallId : Nat
  videoCalls : Nat → VideoCall
  callInvitations : InviteId → CallInvitation
  userProfiles : Address → UserProfile
  userCallHistory : Address → List Nat

/-- Events (src/contracts/PrivateVideoCall.sol:46-55). -/
inductive LedgerEvent where
  | userRegistered (user : Address)
  | callInvited (sender recipient : Address) (inviteId : InviteId)
  | callAccepted (sender recipient : Address) (callId : Nat)
  | callDeclined (sender recipient : Address) (inviteId : InviteId)
  | callStarted (callId : Nat) (initiator recipient : Address)
  | callEnded (callId : Nat) (duration : Nat)
  | signalingDataUpdated (callId : Nat) (user : Address)
  | userStatusUpdated (user : Address)
  | contactAdded (user contact : Address) (isTrusted : Bool)
  | userBlocked (blocker blocked : Address)
deriving DecidableEq, Repr

/-- State of the contract right after the constructor
(src/contracts/PrivateVideoCall.sol:78-81). -/
def genesisState (deployer : Address) : ContractState :=
  ⟨deployer, 1, fun _ => VideoCall.zero, fun _ => CallInvitation.zero,
    fun _ => UserProfile.zero, fun _ => []⟩

/-- The result of one external call: either a revert message or the new
state together with the events emitted. -/
abbrev TxResult := Except String (ContractState × List LedgerEvent)

/-- Whether a call succeeded (did not revert). -/
def opOk (r : TxResult) : Bool :=
  match r with
  | .ok _ => true
  | .error _ => false

/-- registerUser (src/contracts/PrivateVideoCall.sol:83-99). -/
def registerUser (sender : Address) (publicKey initialStatus : Nat)
    (s : ContractState) : TxResult :=
  if (s.userProfiles sender).isRegistered then .error "User already registered"
  else
    let p := s.userProfiles sender
    let p' := { p with isRegistered := true, encryptedPublicKey := publicKey,
                       encryptedStatus := initialStatus }
    .ok ({ s with userProfiles := Function.update s.userProfiles sender p' },
         [.userRegistered sender])

/-- updateUserStatus (src/contracts/PrivateVideoCall.sol:101-109). -/
def updateUserStatus (sender : Address) (newStatus : Nat)
    (s : ContractState) : TxResult :=
  if !(s.userProfiles sender).isRegistered then .error "User not registered"
  else
    let p := s.userProfiles sender
    let p' := { p with encryptedStatus := newStatus }
    .ok ({ s with userProfiles := Function.update s.userProfiles sender p' },
         [.userStatusUpdated sender])

/-- inviteToCall (src/contracts/PrivateVideoCall.sol:111-134). -/
def inviteToCall (sender recipient : Address) (inviteKey timestamp : Nat)
    (s : ContractState) : TxResult :=
  if !(s.userProfiles sender).isRegistered then .error "User not registered"
  else if recipient = sender then .error "Cannot invite yourself"
  else if !(s.userProfiles recipient).isRegistered then .error "Recipient not registered"
  else if (s.userProfiles recipient).blockedUsers sender then
    .error "You are blocked by this user"
  else
    let inviteId := computeInviteId sender recipient timestamp
    let inv : CallInvitation := ⟨sender, recipient, inviteKey, timestamp, false, false⟩
    .ok ({ s with callInvitations := Function.update s.callInvitations inviteId inv },
         [.callInvited sender recipient inviteId])

/-- acceptCallInvitation (src/contracts/PrivateVideoCall.sol:136-171). -/
def acceptCallInvitation (sender : Address) (inviteId : InviteId)
    (callKey signalingData timestamp : Nat) (s : ContractState) : TxResult :=
  if !(s.userProfiles sender).isRegistered then .error "User not registered"
  else
    let invitation := s.callInvitations inviteId
    if invitation.recipient ≠ sender then .error "Not your invitation"
    else if invitation.isAccepted || invitation.isDeclined then
      .error "Invitation already responded"
    else
      let invitation' := { invitation with isAccepted := true }
      let callId := s.nextCallId
      let call : VideoCall :=
        ⟨invitation.sender, sender, callKey, signalingData, true, false, timestamp, 0, 0⟩
      let h1 := Function.update s.userCallHistory invitation.sender
                  (s.userCallHistory invitation.sender ++ [callId])
      let h2 := Function.update h1 sender (h1 sender ++ [callId])
      .ok ({ s with
              callInvitations := Function.update s.callInvitations inviteId invitation',
              nextCallId := callId + 1,
              videoCalls := Function.update s.videoCalls callId call,
              userCallHistory := h2 },
           [.callAccepted invitation.sender sender callId])

/-- declineCallInvitation (src/contracts/PrivateVideoCall.sol:173-181). -/
def declineCallInvitation (sender : Address) (inviteId : InviteId)
    (s : ContractState) : TxResult :=
  if !(s.userProfiles sender).isRegistered then .error "User not registered"
  else
    let invitation := s.callInvitations inviteId
    if invitation.recipient ≠ sender then .error "Not your invitation"
    else if invitation.isAccepted || invitation.isDeclined then
      .error "Invitation already responded"
    else
      let invitation' := { invitation with isDeclined := true }
      .ok ({ s with callInvitations := Function.update s.callInvitations inviteId invitation' },
           [.callDeclined invitation.sender sender inviteId])

/-- startVideoCall (src/contracts/PrivateVideoCall.sol:183-191), with its
`callExists` and `onlyCallParticipant` modifiers inlined in order. -/
def startVideoCall (sender : Address) (callId timestamp : Nat)
    (s : ContractState) : TxResult :=
  if !(callId < s.nextCallId) then .error "Call does not exist"
  else
    let call := s.videoCalls callId
    if !(sender = call.initiator ∨ sender = call.recipient : Bool) then
      .error "Not a call participant"
    else if !(call.isActive && !call.isConnected) then
      .error "Call not ready or already connected"
    else
      let call' := { call with isConnected := true, startTime := timestamp }
      .ok ({ s with videoCalls := Function.update s.videoCalls callId call' },
           [.callStarted callId call.initiator call.recipient])

/-- updateSignalingData (src/contracts/PrivateVideoCall.sol:193-205). -/
def updateSignalingData (sender : Address) (callId newSignalingData : Nat)
    (s : ContractState) : TxResult :=
  if !(callId < s.nextCallId) then .error "Call does not exist"
  else
    let call := s.videoCalls callId
    if !(sender = call.initiator ∨ sender = call.recipient : Bool) then
      .error "Not a call participant"
    else if !call.isActive then .error "Call not active"
    else
      let call' := { call with encryptedSignalingData := newSignalingData }
      .ok ({ s with videoCalls := Function.update s.videoCalls callId call' },
           [.signalingDataUpdated callId sender])

/-- endVideoCall (src/contracts/PrivateVideoCall.sol:207-217).  Solidity 0.8
checked arithmetic makes `endTime - startTime` revert on underflow. -/
def endVideoCall (sender : Address) (callId timestamp : Nat)
    (s : ContractState) : TxResult :=
  if !(callId < s.nextCallId) then .error "Call does not exist"
  else
    let call := s.videoCalls callId
    if !(sender = call.initiator ∨ sender = call.recipient : Bool) then
      .error "Not a call participant"
    else if !call.isActive then .error "Call already ended"
    else if timestamp < call.startTime then .error "Arithmetic underflow"
    else
      let call' := { call with isActive := false, endTime := timestamp }
      .ok ({ s with videoCalls := Function.update s.videoCalls callId call' },
           [.callEnded callId (timestamp - call.startTime)])

/-- addTrustedContact (src/contracts/PrivateVideoCall.sol:219-226). -/
def addTrustedContact (sender contact : Address) (s : ContractState) : TxResult :=
  if !(s.userProfiles sender).isRegistered then .error "User not registered"
  else if contact = sender then .error "Cannot add yourself"
  else if !(s.userProfiles contact).isRegistered then .error "Contact not registered"
  else
    let p := s.userProfiles sender
    let p' := { p with trustedContacts := Function.update p.trustedContacts contact true }
    .ok ({ s with userProfiles := Function.update s.userProfiles sender p' },
         [.contactAdded sender contact true])

/-- blockUser (src/contracts/PrivateVideoCall.sol:228-234). -/
def blockUser (sender target : Address) (s : ContractState) : TxResult :=
  if !(s.userProfiles sender).isRegistered then .error "User not registered"
  else if target = sender then .error "Cannot block yourself"
  else
    let p := s.userProfiles sender
    let p' := { p with blockedUsers := Function.update p.blockedUsers target true }
    .ok ({ s with userProfiles := Function.update s.userProfiles sender p' },
         [.userBlocked sender target])

/-- unblockUser (src/contracts/PrivateVideoCall.sol:236-238). -/
def unblockUser (sender target : Address) (s : ContractState) : TxResult :=
  if !(s.userProfiles sender).isRegistered then .error "User not registered"
  else
    let p := s.userProfiles sender
    let p' := { p with blockedUsers := Function.update p.blockedUsers target false }
    .ok ({ s with userProfiles := Function.update s.userProfiles sender p' },
         [])

/-- One queued external call to the contract, with the timestamp of the
block that would run it. -/
inductive Op where
  | register (sender : Address) (publicKey initialStatus : Nat)
  | updateStatus (sender : Address) (newStatus : Nat)
  | invite (sender recipient : Address) (inviteKey timestamp : Nat)
  | accept (sender : Address) (inviteId : InviteId) (callKey signalingData timestamp : Nat)
  | decline (sender : Address) (inviteId : InviteId)
  | start (sender : Address) (callId timestamp : Nat)
  | signal (sender : Address) (callId newSignalingData : Nat)
  | endv (sender : Address) (callId timestamp : Nat)
  | addContact (sender contact : Address)
  | blockU (sender target : Address)
  | unblockU (sender target : Address)
deriving DecidableEq, Repr

/-- The external function an `Op` stands for, applied to the state. -/
def opCall (op : Op) (s : ContractState) : TxResult :=
  match op with
  | .register a pk st => registerUser a pk st s
  | .updateStatus a st => updateUserStatus a st s
  | .invite a b k ts => inviteToCall a b k ts s
  | .accept a i ck sd ts => acceptCallInvitation a i ck sd ts s
  | .decline a i => declineCallInvitation a i s
  | .start a c ts => startVideoCall a c ts s
  | .signal a c d => updateSignalingData a c d s
  | .endv a c ts => endVideoCall a c ts s
  | .addContact a b => addTrustedContact a b s
  | .blockU a b => blockUser a b s
  | .unblockU a b => unblockUser a b s

/-- Dispatch one external call; a revert leaves the state unchanged and
emits nothing. -/
def execOp (op : Op) (s : ContractState) : ContractState × List LedgerEvent :=
  match opCall op s with
  | .ok v => v
  | .error _ => (s, [])

/-- Run a sequence of external calls, accumulating the full event trace. -/
def execOps : List Op → ContractState → ContractState × List LedgerEvent
  | [], s => (s, [])
  | op :: rest, s =>
    let r := execOp op s
    let r2 := execOps rest r.1
    (r2.1, r.2 ++ r2.2)

/-- Does an event announce `CallStarted` for this call id? -/
def isCallStartedFor (callId : Nat) : LedgerEvent → Bool
  | .callStarted c _ _ => c = callId
  | _ => false

/-- How many `CallStarted` events for `callId` a trace holds. -/
def countStarted (callId : Nat) (evs : List LedgerEvent) : Nat :=
  (evs.filter (isCallStartedFor callId)).length

/-- The caller-is-participant check of the `onlyCallParticipant` modifier
(src/contracts/PrivateVideoCall.sol:72-76). -/
def isParticipant (s : ContractState) (sender : Address) (callId : Nat) : Prop :=
  sender = (s.videoCalls callId).initiator ∨ sender = (s.videoCalls callId).recipient

instance (s : ContractState) (sender : Address) (callId : Nat) :
    Decidable (isParticipant s sender callId) := by
  unfold isParticipant
  infer_instance

/-- Whether an invitation has already been responded to (the negation of
the `require` guard shared by accept and decline,
src/contracts/PrivateVideoCall.sol:139 and 176). -/
def responded (inv : CallInvitation) : Bool :=
  inv.isAccepted || inv.isDeclined

/-- One attempt to respond to a fixed invitation id: an accept with its
arguments, or a decline. -/
inductive RespondOp where
  | acc (sender : Address) (callKey signalingData timestamp : Nat)
  | dec (sender : Address)
deriving DecidableEq, Repr

/-- Run a sequence of respond attempts against one invitation id; a
reverted attempt leaves the state unchanged. -/
def execResponds (inviteId : InviteId) : List RespondOp → ContractState → ContractState
  | [], s => s
  | .acc a ck sd ts :: rest, s =>
    execResponds inviteId rest (execOp (.accept a inviteId ck sd ts) s).1
  | .dec a :: rest, s =>
    execResponds inviteId rest (execOp (.decline a inviteId) s).1

/-- Genesis followed by registering users 1 and 2. -/
def registeredPair : ContractState :=
  (execOps [.register 1 11 1, .register 2 22 1] (genesisState 0)).1

/-- Two registered users, user 1 invited user 2 at timestamp 5, and user 2
accepted: the invitation (1, 2, 5) is responded and call 1 is active. -/
def respondedState : ContractState :=
  (execOps [.register 1 11 1, .register 2 22 1, .invite 1 2 7 5,
            .accept 2 (1, 2, 5) 9 9 6] (genesisState 0)).1

/-- The state after the first invite of the re-invite scenario. -/
def c9s1 (a b : Address) (k1 ts : Nat) (s : ContractState) : ContractState :=
  (execOp (.invite a b k1 ts) s).1

/-- After user `b` accepts that invitation. -/
def c9s2 (a b : Address) (k1 ck1 sd1 ts ts1 : Nat) (s : ContractState) : ContractState :=
  (execOp (.accept b (computeInviteId a b ts) ck1 sd1 ts1) (c9s1 a b k1 ts s)).1

/-- After a re-invite by the same pair with the same block timestamp. -/
def c9s3 (a b : Address) (k1 ck1 sd1 k2 ts ts1 : Nat) (s : ContractState) : ContractState :=
  (execOp (.invite a b k2 ts) (c9s2 a b k1 ck1 sd1 ts ts1 s)).1

/-- Call ids at or above `nextCallId` are still unwritten (their record is
the mapping's zero value). -/
def FreshBound (s : ContractState) : Prop :=
  ∀ j, s.nextCallId ≤ j → s.videoCalls j = VideoCall.zero

end Contract

namespace Client

open Contract (Address InviteId LedgerEvent)

/-- The call-related mutable fields of `PrivateVideoCallApp`
(src/app.js:3-15).  `currentCallId` and `currentInviteId` start `null`;
`localStream`, `peerConnection` and `durationInterval` are tracked as
whether the handle is currently allocated.  `callStartTime` is the
`Date.now()` capture of `handleCallStarted`. -/
structure AppState where
  currentCallId : Option Nat
  currentInviteId : Option InviteId
  callStartTime : Option Nat
  localStream : Bool
  peerConnection : Bool
  durationInterval : Bool
deriving DecidableEq, Repr

/-- The state the constructor builds (src/app.js:3-15). -/
def initialState : AppState :=
  ⟨none, none, none, false, false, false⟩

/-- One transaction the client submits to the ledger contract. -/
inductive ClientTx where
  | inviteTx (recipient : Address) (inviteKey : Nat)
  | acceptTx (inviteId : InviteId) (callKey signalingData : Nat)
  | declineTx (inviteId : InviteId)
  | startTx (callId : Nat)
  | signalTx (callId : Nat) (data : Nat)
  | endTx (callId : Nat)
deriving DecidableEq, Repr

/-- showIncomingCall (src/app.js:351-355): records the invite id
unconditionally (the DOM notification is outside the model). -/
def showIncomingCall (inviteId : InviteId) (s : AppState) : AppState :=
  { s with currentInviteId := some inviteId }

/-- hideIncomingCall (src/app.js:357-360). -/
def hideIncomingCall (s : AppState) : AppState :=
  { s with currentInviteId := none }

/-- cleanup (src/app.js:419-452): stops the media stream, closes the peer
connection, clears the timer, and resets `currentCallId` and
`callStartTime`.  It does not touch `currentInviteId`. -/
def cleanup (s : AppState) : AppState :=
  { s with localStream := false, peerConnection := false, durationInterval := false,
           currentCallId := none, callStartTime := none }

/-- startMediaCapture (src/app.js:285-302): on success the local stream is
held; on failure the error is rethrown and the state is untouched. -/
def startMediaCapture (mediaOk : Bool) (s : AppState) : Option AppState :=
  if mediaOk then some { s with localStream := true } else none

/-- initializeWebRTC (src/app.js:304-332): allocates the peer connection. -/
def initializeWebRTC (s : AppState) : AppState :=
  { s with peerConnection := true }

/-- startVideoCall (src/app.js:251-269): no-op without a current call id;
otherwise capture media, build the negotiator, then submit the start-call
transaction.  A media failure is caught by the outer try/catch, leaving the
state as it was and submitting nothing. -/
def startVideoCall (mediaOk : Bool) (s : AppState) : AppState × List ClientTx :=
  match s.currentCallId with
  | none => (s, [])
  | some callId =>
    match startMediaCapture mediaOk s with
    | none => (s, [])
    | some s1 => (initializeWebRTC s1, [.startTx callId])

/-- endCall (src/app.js:271-283): no-op without a current call id; otherwise
submit the end-call transaction and, once it confirms, run `cleanup`.  A
failed confirmation leaves the state unchanged. -/
def endCall (txOk : Bool) (s : AppState) : AppState × List ClientTx :=
  match s.currentCallId with
  | none => (s, [])
  | some callId =>
    if txOk then (cleanup s, [.endTx callId]) else (s, [.endTx callId])

/-- acceptInvite (src/app.js:215-235): no-op without a current invite id;
otherwise submit the accept transaction and, once it confirms, hide the
incoming-call notification. -/
def acceptInvite (callKey signalingData : Nat) (txOk : Bool)
    (s : AppState) : AppState × List ClientTx :=
  match s.currentInviteId with
  | none => (s, [])
  | some inviteId =>
    if txOk then (hideIncomingCall s, [.acceptTx inviteId callKey signalingData])
    else (s, [.acceptTx inviteId callKey signalingData])

/-- declineInvite (src/app.js:237-249). -/
def declineInvite (txOk : Bool) (s : AppState) : AppState × List ClientTx :=
  match s.currentInviteId with
  | none => (s, [])
  | some inviteId =>
    if txOk then (hideIncomingCall s, [.declineTx inviteId])
    else (s, [.declineTx inviteId])

/-- handleCallAccepted (src/app.js:362-365): store the call id, then run
`startVideoCall`. -/
def handleCallAccepted (callId : Nat) (mediaOk : Bool)
    (s : AppState) : AppState × List ClientTx :=
  startVideoCall mediaOk { s with currentCallId := some callId }

/-- handleCallStarted (src/app.js:367-376): store the call id, capture the
start time, start the duration timer. -/
def handleCallStarted (callId now : Nat) (s : AppState) : AppState :=
  { s with currentCallId := some callId, callStartTime := some now,
           durationInterval := true }

/-- handleCallEnded (src/app.js:378-381). -/
def handleCallEnded (s : AppState) : AppState :=
  cleanup s

/-- The contract-event listeners (src/app.js:121-150): `CallInvited` is
handled when addressed to self, `CallAccepted` when self is the initiator,
`CallStarted` when self is a participant, `CallEnded` when the event's call
id equals the current one.  Events the client does not listen to are
ignored. -/
def handleEvent (self : Address) (mediaOk : Bool) (now : Nat)
    (ev : LedgerEvent) (s : AppState) : AppState × List ClientTx :=
  match ev with
  | .callInvited _sender recipient inviteId =>
    if recipient = self then (showIncomingCall inviteId s, []) else (s, [])
  | .callAccepted sender _ callId =>
    if sender = self then handleCallAccepted callId mediaOk s else (s, [])
  | .callStarted callId initiator recipient =>
    if initiator = self ∨ recipient = self then (handleCallStarted callId now s, [])
    else (s, [])
  | .callEnded callId _ =>
    if s.currentCallId = some callId then (handleCallEnded s, []) else (s, [])
  | _ => (s, [])

/-- One input the coordinator processes: a ledger event or a local user
action.  `mediaOk` and `txOk` carry the environment's answer to the media
acquisition and to the transaction confirmation the step awaits. -/
inductive ClientInput where
  | ledger (mediaOk : Bool) (now : Nat) (ev : LedgerEvent)
  | acceptAction (callKey signalingData : Nat) (txOk : Bool)
  | declineAction (txOk : Bool)
  | endAction (txOk : Bool)
  | startAction (mediaOk : Bool)
  | initiateAction (recipient : Address) (inviteKey : Nat)
deriving Repr

/-- Process one input (the listener dispatch of src/app.js:106-150 together
with the button handlers).  `initiateCall` (src/app.js:194-213) submits the
invite transaction and changes no tracked state. -/
def step (self : Address) (input : ClientInput) (s : AppState) : AppState × List ClientTx :=
  match input with
  | .ledger mediaOk now ev => handleEvent self mediaOk now ev s
  | .acceptAction ck sd txOk => acceptInvite ck sd txOk s
  | .declineAction txOk => declineInvite txOk s
  | .endAction txOk => endCall txOk s
  | .startAction mediaOk => startVideoCall mediaOk s
  | .initiateAction r k => (s, [.inviteTx r k])

/-- Process a sequence of inputs one at a time (the single-threaded event
loop), accumulating every transaction submitted. -/
def run (self : Address) : List ClientInput → AppState → AppState × List ClientTx
  | [], s => (s, [])
  | i :: rest, s =>
    let r := step self i s
    let r2 := run self rest r.1
    (r2.1, r.2 ++ r2.2)

/-- The spec's coordinator phases (spec.md section 4.1). -/
inductive CallPhase where
  | idle
  | incomingInvite
  | outgoingInvite
  | starting
  | connected
  | ending
deriving DecidableEq, Repr, Fintype

/-- The phase of the spec's `LocalCallState` read off the client's concrete
fields: a tracked call is `Connected` once `handleCallStarted` captured a
start time and `Starting` before; otherwise a tracked invite means
`IncomingInvite`, else `Idle`. -/
def phase (s : AppState) : CallPhase :=
  match s.currentCallId with
  | some _ => if s.callStartTime.isSome then .connected else .starting
  | none => if s.currentInviteId.isSome then .incomingInvite else .idle

end Client

namespace Client

open Contract (Address InviteId LedgerEvent)

/-- A reachable client state tracking both a call and an invite: a
`CallStarted` naming self as initiator, then a `CallInvited` addressed to
self while the call is active. -/
def bothSetState : AppState :=
  (run 10 [.ledger true 4 (.callStarted 1 10 2),
           .ledger true 4 (.callInvited 2 10 (2, 10, 0))] initialState).1

/-- A reachable client state in a call with no pending invite. -/
def inCallState : AppState :=
  (run 10 [.ledger true 4 (.callStarted 1 10 2)] initialState).1

/-- The state after the initiator's `CallAccepted` handler ran into a
failing media acquisition. -/
def mediaFailState : AppState :=
  (handleEvent 10 false 0 (.callAccepted 10 2 1) initialState).1

/-- `callStartTime` is only ever held while a call id is tracked. -/
def timeTied (s : AppState) : Prop :=
  s.callStartTime.isSome = true → s.currentCallId.isSome = true

theorem step_timeTied (self : Address) (i : ClientInput) (s : AppState)
    (h : timeTied s) : timeTied (step self i s).1 := by
  cases i with
  | ledger mediaOk now ev =>
    cases ev <;>
      simp only [step, handleEvent] <;>
      (try split) <;>
      (try cases mediaOk) <;>
      simp_all [timeTied, showIncomingCall, handleCallAccepted, startVideoCall,
        startMediaCapture, initializeWebRTC, handleCallStarted, handleCallEnded, cleanup]
  | acceptAction ck sd txOk =>
    simp only [step, acceptInvite]
    split <;> (try split) <;> simp_all [timeTied, hideIncomingCall]
  | declineAction txOk =>
    simp only [step, declineInvite]
    split <;> (try split) <;> simp_all [timeTied, hideIncomingCall]
  | endAction txOk =>
    simp only [step, endCall]
    split <;> (try split) <;> simp_all [timeTied, cleanup]
  | startAction mediaOk =>
    simp only [step, startVideoCall]
    cases mediaOk <;> split <;>
      simp_all [timeTied, startMediaCapture, initializeWebRTC]
  | initiateAction r k =>
    simpa [step] using h

theorem run_timeTied (self : Address) (inputs : List ClientInput) (s : AppState)
    (h : timeTied s) : timeTied (run self inputs s).1 := by
  induction inputs generalizing s with
  | nil => simpa [run] using h
  | cons i rest ih =>
    simp only [run]
    exact ih _ (step_timeTied self i s h)

theorem phase_callId_iff (s : AppState) :
    s.currentCallId.isSome = true ↔
      (phase s = CallPhase.starting ∨ phase s = CallPhase.connected) := by
  cases hc : s.currentCallId <;> cases ht : s.callStartTime <;>
    cases hi : s.currentInviteId <;> simp [phase, hc, ht, hi]

end Client

namespace Client

open Contract (Address InviteId LedgerEvent)

/-- C1 (counterexample).  The claim says `currentCallId` is set iff the
phase is Starting or Connected while `currentInviteId` is set only in phase
IncomingInvite.  After a `CallStarted` for self followed by a `CallInvited`
addressed to self — a run of the coordinator from its initial state — both
`currentCallId` and `currentInviteId` are set, and no phase assignment at
all can satisfy both halves of the invariant at that state. -/
theorem c1_counterexample :
    bothSetState =
      (run 10 [.ledger true 4 (.callStarted 1 10 2),
               .ledger true 4 (.callInvited 2 10 (2, 10, 0))] initialState).1 ∧
    bothSetState.currentCallId = some 1 ∧
    bothSetState.currentInviteId = some (2, 10, 0) ∧
    ¬ ∃ ph : CallPhase,
        ((bothSetState.currentCallId.isSome = true) ↔
          (ph = CallPhase.starting ∨ ph = CallPhase.connected)) ∧
        (bothSetState.currentInviteId.isSome = true → ph = CallPhase.incomingInvite) :=
  ⟨rfl, by decide, by decide, by decide⟩

/-- C1 (amended).  After every transition of the coordinator from its
initial state, `currentCallId` is set iff the derived phase is Starting or
Connected, and a captured start time is only ever held while a call id is
tracked; the `currentInviteId` half of the claimed invariant does not hold
on the code, since an invite arriving during an active call leaves
`currentInviteId` set outside IncomingInvite. -/
theorem c1_callId_phase_invariant (self : Address) (inputs : List ClientInput) :
    ((run self inputs initialState).1.currentCallId.isSome = true ↔
      (phase (run self inputs initialState).1 = CallPhase.starting ∨
       phase (run self inputs initialState).1 = CallPhase.connected)) ∧
    timeTied (run self inputs initialState).1 := by
  refine ⟨phase_callId_iff _, run_timeTied self inputs initialState ?_⟩
  intro h
  simp [initialState] at h

/-- C2 (counterexample).  From the reachable state tracking both a call and
an invite, the end-call action with a confirmed transaction does not clear
`currentInviteId`, so the coordinator does not return to Idle with all
optional fields cleared: it lands in IncomingInvite. -/
theorem c2_counterexample :
    bothSetState.currentCallId = some 1 ∧
    (endCall true bothSetState).1.currentInviteId = some (2, 10, 0) ∧
    phase (endCall true bothSetState).1 = CallPhase.incomingInvite := by
  decide

/-- C2 (amended).  From any state with an active call id, a confirmed
end-call clears `currentCallId` and the start time, releases the media
stream, the negotiator and the timer, submits exactly the end transaction,
and a second end-call is a no-op; but `currentInviteId` is left exactly as
it was rather than cleared. -/
theorem c2_end_call_cleanup (s : AppState) (c : Nat) (h : s.currentCallId = some c) :
    (endCall true s).1.currentCallId = none ∧
    (endCall true s).1.callStartTime = none ∧
    (endCall true s).1.localStream = false ∧
    (endCall true s).1.peerConnection = false ∧
    (endCall true s).1.durationInterval = false ∧
    (endCall true s).1.currentInviteId = s.currentInviteId ∧
    (endCall true s).2 = [ClientTx.endTx c] ∧
    endCall true (endCall true s).1 = ((endCall true s).1, []) ∧
    endCall false (endCall true s).1 = ((endCall true s).1, []) := by
  simp [endCall, h, cleanup]

/-- C2 (witness): the amended end-call theorem applied at the reachable
state that tracks call 1 and invite (2, 10, 0). -/
theorem c2_end_call_cleanup_witness :
    (endCall true bothSetState).1.currentCallId = none ∧
    (endCall true bothSetState).1.currentInviteId = bothSetState.currentInviteId :=
  ⟨(c2_end_call_cleanup bothSetState 1 (by decide)).1,
   (c2_end_call_cleanup bothSetState 1 (by decide)).2.2.2.2.2.1⟩

/-- C4 (counterexample).  A `CallAccepted` event naming self as initiator is
processed with no staleness check: in the initial state, where no outgoing
invite exists so any call id is stale, the event still overwrites
`currentCallId`, mutating `LocalCallState`. -/
theorem c4_counterexample :
    initialState.currentCallId = none ∧
    initialState.currentInviteId = none ∧
    (handleEvent 10 true 0 (.callAccepted 10 2 9) initialState).1.currentCallId = some 9 ∧
    (handleEvent 10 true 0 (.callAccepted 10 2 9) initialState).1 ≠ initialState := by
  decide

/-- C4 (amended).  A `CallAccepted` event naming a different initiator than
self never mutates the client state and submits nothing; but an event
naming self as initiator stores its call id unconditionally — the code
performs no staleness check against a tracked outgoing invite. -/
theorem c4_accepted_other_initiator_frame (self sender recipient : Address)
    (callId : Nat) (mediaOk : Bool) (now : Nat) (s : AppState)
    (h : sender ≠ self) :
    handleEvent self mediaOk now (.callAccepted sender recipient callId) s = (s, []) := by
  simp [handleEvent, h]

/-- C4 (witness): a `CallAccepted` from initiator 3 leaves client 10's
initial state untouched. -/
theorem c4_accepted_other_initiator_frame_witness :
    handleEvent 10 true 0 (.callAccepted 3 10 9) initialState = (initialState, []) :=
  c4_accepted_other_initiator_frame 10 3 10 9 true 0 initialState (by decide)

/-- C5 (counterexample).  When media acquisition fails while entering
Starting (the initiator's `CallAccepted` path), the coordinator submits no
start-call transaction and allocates no negotiator, but it does not
transition to Idle: `currentCallId` stays set and the derived phase remains
Starting. -/
theorem c5_counterexample :
    (handleEvent 10 false 0 (.callAccepted 10 2 1) initialState).2 = [] ∧
    mediaFailState.currentCallId = some 1 ∧
    mediaFailState.peerConnection = false ∧
    phase mediaFailState = CallPhase.starting ∧
    phase mediaFailState ≠ CallPhase.idle := by
  decide

/-- C5 (amended).  From any state tracking a call id, a start attempt whose
media acquisition fails submits no transaction, allocates nothing, and
leaves the state — including its phase — exactly as it was: the coordinator
stays stuck in Starting instead of returning to Idle. -/
theorem c5_media_failure_stuck (s : AppState) (c : Nat)
    (h : s.currentCallId = some c) :
    startVideoCall false s = (s, []) ∧
    phase (startVideoCall false s).1 = phase s ∧
    (startVideoCall false s).1.currentCallId = some c := by
  have h1 : startVideoCall false s = (s, []) := by
    simp [startVideoCall, h, startMediaCapture]
  exact ⟨h1, by rw [h1], by rw [h1]; exact h⟩

/-- C5 (witness): the media-failure step applied at the reachable state in
which the initiator already holds call id 1. -/
theorem c5_media_failure_stuck_witness :
    startVideoCall false mediaFailState = (mediaFailState, []) ∧
    phase (startVideoCall false mediaFailState).1 = phase mediaFailState ∧
    (startVideoCall false mediaFailState).1.currentCallId = some 1 :=
  c5_media_failure_stuck mediaFailState 1 (by decide)

/-- C6 (counterexample).  A second incoming invite is neither queued nor
rejected: a run receiving invite (2, 10, 0) and then invite (3, 10, 7)
ends with the first tracked invite silently replaced by the second, while
submitting no transaction, and the client state has no field that still
records the first invite. -/
theorem c6_counterexample :
    (run 10 [.ledger true 0 (.callInvited 2 10 (2, 10, 0))] initialState).1.currentInviteId
      = some (2, 10, 0) ∧
    (run 10 [.ledger true 0 (.callInvited 2 10 (2, 10, 0)),
             .ledger true 0 (.callInvited 3 10 (3, 10, 7))] initialState).1.currentInviteId
      = some (3, 10, 7) ∧
    (run 10 [.ledger true 0 (.callInvited 2 10 (2, 10, 0)),
             .ledger true 0 (.callInvited 3 10 (3, 10, 7))] initialState).2 = [] := by
  decide

/-- C6 (amended).  Every `CallInvited` event addressed to self overwrites
`currentInviteId` unconditionally and changes nothing else, whatever the
coordinator was tracking; second concurrent invites are neither queued nor
rejected. -/
theorem c6_invite_overwrites (self sender : Address) (inviteId : InviteId)
    (mediaOk : Bool) (now : Nat) (s : AppState) :
    handleEvent self mediaOk now (.callInvited sender self inviteId) s =
      ({ s with currentInviteId := some inviteId }, []) := by
  simp [handleEvent, showIncomingCall]

/-- C7.  With a tracked call id, the first end-call submits exactly one
end transaction and clears the call id, so an immediately following second
end-call submits nothing and changes nothing, whether or not its
confirmation would succeed. -/
theorem c7_end_call_idempotent (s : AppState) (c : Nat) (txOk2 : Bool)
    (h : s.currentCallId = some c) :
    (endCall true s).2 = [ClientTx.endTx c] ∧
    endCall txOk2 (endCall true s).1 = ((endCall true s).1, []) := by
  simp [endCall, h, cleanup]

/-- C7 (witness): two back-to-back end-calls from the reachable in-call
state submit exactly the one end transaction for call 1. -/
theorem c7_end_call_idempotent_witness :
    (endCall true inCallState).2 = [ClientTx.endTx 1] ∧
    endCall true (endCall true inCallState).1 = ((endCall true inCallState).1, []) :=
  c7_end_call_idempotent inCallState 1 true (by decide)

end Client

namespace Contract

/-- A reverted call leaves the state unchanged and emits nothing. -/
theorem execOp_frame (op : Op) (s : ContractState)
    (h : opOk (opCall op s) = false) : execOp op s = (s, []) := by
  unfold execOp
  rcases hr : opCall op s with m | v
  · rfl
  · rw [hr] at h
    simp [opOk] at h

/-- A successful call's result is what `execOp` returns. -/
theorem execOp_of_ok (op : Op) (s : ContractState)
    (v : ContractState × List LedgerEvent) (h : opCall op s = .ok v) :
    execOp op s = v := by
  unfold execOp
  rw [h]

/-- Accepting an already-responded invitation reverts. -/
theorem accept_responded_reverts (sender : Address) (inviteId : InviteId)
    (callKey signalingData timestamp : Nat) (s : ContractState)
    (h : responded (s.callInvitations inviteId) = true) :
    opOk (acceptCallInvitation sender inviteId callKey signalingData timestamp s)
      = false := by
  simp only [responded, acceptCallInvitation] at h ⊢
  split_ifs <;> rfl

/-- Declining an already-responded invitation reverts. -/
theorem decline_responded_reverts (sender : Address) (inviteId : InviteId)
    (s : ContractState) (h : responded (s.callInvitations inviteId) = true) :
    opOk (declineCallInvitation sender inviteId s) = false := by
  simp only [responded, declineCallInvitation] at h ⊢
  split_ifs <;> rfl

/-- Once responded, any sequence of further respond attempts leaves the
whole contract state untouched. -/
theorem execResponds_fixed (inviteId : InviteId) (ops : List RespondOp)
    (s : ContractState) (h : responded (s.callInvitations inviteId) = true) :
    execResponds inviteId ops s = s := by
  induction ops with
  | nil => rfl
  | cons op rest ih =>
    cases op with
    | acc a ck sd ts =>
      rw [execResponds,
        execOp_frame (.accept a inviteId ck sd ts) s
          (accept_responded_reverts a inviteId ck sd ts s h), ih]
    | dec a =>
      rw [execResponds,
        execOp_frame (.decline a inviteId) s
          (decline_responded_reverts a inviteId s h), ih]

/-- C3.  Exactly one of accept/decline succeeds per invitation record: a
successful accept (decline) is only possible while the record is not yet
responded and terminally marks it accepted (declined); once the record is
responded, every later accept or decline for the same invite id reverts,
and any sequence of such attempts leaves the contract state unchanged. -/
theorem c3_first_writer_wins (s t : ContractState) (inviteId : InviteId)
    (sender sender' : Address) (ck sd ts ck' sd' ts' : Nat) (ops : List RespondOp)
    (h : responded (s.callInvitations inviteId) = true) :
    opOk (acceptCallInvitation sender inviteId ck sd ts s) = false ∧
    opOk (declineCallInvitation sender inviteId s) = false ∧
    execResponds inviteId ops s = s ∧
    (∀ u evs, acceptCallInvitation sender' inviteId ck' sd' ts' t = Except.ok (u, evs) →
      responded (t.callInvitations inviteId) = false ∧
      (u.callInvitations inviteId).isAccepted = true ∧
      responded (u.callInvitations inviteId) = true) ∧
    (∀ u evs, declineCallInvitation sender' inviteId t = Except.ok (u, evs) →
      responded (t.callInvitations inviteId) = false ∧
      (u.callInvitations inviteId).isDeclined = true ∧
      responded (u.callInvitations inviteId) = true) := by
  refine ⟨accept_responded_reverts sender inviteId ck sd ts s h,
          decline_responded_reverts sender inviteId s h,
          execResponds_fixed inviteId ops s h, ?_, ?_⟩
  · intro u evs hok
    simp only [acceptCallInvitation] at hok
    split_ifs at hok with h1 h2 h3
    simp only [Except.ok.injEq, Prod.mk.injEq] at hok
    obtain ⟨hu, -⟩ := hok
    subst hu
    refine ⟨by simpa [responded] using h3, ?_, ?_⟩
    · simp [Function.update_same]
    · simp [responded, Function.update_same]
  · intro u evs hok
    simp only [declineCallInvitation] at hok
    split_ifs at hok with h1 h2 h3
    simp only [Except.ok.injEq, Prod.mk.injEq] at hok
    obtain ⟨hu, -⟩ := hok
    subst hu
    refine ⟨by simpa [responded] using h3, ?_, ?_⟩
    · simp [Function.update_same]
    · simp [responded, Function.update_same]

/-- C3 (witness): at the reachable responded state, accept and decline for
invitation (1, 2, 5) both revert, and a further decline-then-accept
sequence leaves the state untouched. -/
theorem c3_first_writer_wins_witness :
    opOk (acceptCallInvitation 2 (1, 2, 5) 30 31 32 respondedState) = false ∧
    opOk (declineCallInvitation 2 (1, 2, 5) respondedState) = false ∧
    execResponds (1, 2, 5) [RespondOp.dec 2, RespondOp.acc 2 33 34 35] respondedState
      = respondedState := by
  have h := c3_first_writer_wins respondedState registeredPair (1, 2, 5) 2 2 30 31 32
      33 34 35 [RespondOp.dec 2, RespondOp.acc 2 33 34 35] (by decide)
  exact ⟨h.1, h.2.1, h.2.2.1⟩

/-- startVideoCall reverts for a non-participant caller or an inactive
call. -/
theorem start_guard_fails (sender : Address) (callId ts : Nat) (s : ContractState)
    (h : ¬ isParticipant s sender callId ∨ (s.videoCalls callId).isActive = false) :
    opOk (startVideoCall sender callId ts s) = false := by
  simp only [startVideoCall]
  split_ifs with h1 h2 h3
  · rfl
  · rfl
  · rfl
  · exfalso
    rcases h with h | h
    · simp only [isParticipant] at h
      simp at h2
      exact h ((or_iff_not_imp_left).mpr h2)
    · simp [h] at h3

/-- updateSignalingData reverts for a non-participant caller or an
inactive call. -/
theorem signal_guard_fails (sender : Address) (callId sd : Nat) (s : ContractState)
    (h : ¬ isParticipant s sender callId ∨ (s.videoCalls callId).isActive = false) :
    opOk (updateSignalingData sender callId sd s) = false := by
  simp only [updateSignalingData]
  split_ifs with h1 h2 h3
  · rfl
  · rfl
  · rfl
  · exfalso
    rcases h with h | h
    · simp only [isParticipant] at h
      simp at h2
      exact h ((or_iff_not_imp_left).mpr h2)
    · simp [h] at h3

/-- endVideoCall reverts for a non-participant caller or an inactive
call. -/
theorem endv_guard_fails (sender : Address) (callId ts : Nat) (s : ContractState)
    (h : ¬ isParticipant s sender callId ∨ (s.videoCalls callId).isActive = false) :
    opOk (endVideoCall sender callId ts s) = false := by
  simp only [endVideoCall]
  split_ifs with h1 h2 h3 h4
  · rfl
  · rfl
  · rfl
  · rfl
  · exfalso
    rcases h with h | h
    · simp only [isParticipant] at h
      simp at h2
      exact h ((or_iff_not_imp_left).mpr h2)
    · simp [h] at h3

/-- C8.  startVideoCall, updateSignalingData and endVideoCall succeed only
when the caller is the initiator or the recipient of an existing, active
call; for a non-participant caller or an inactive call each of the three
reverts and leaves the whole contract state (so in particular the call
record) unchanged and emits nothing. -/
theorem c8_participant_active_guard (s t : ContractState) (sender sender' : Address)
    (callId callId' ts sd ts2 ts' sd' ts2' : Nat)
    (h : ¬ isParticipant s sender callId ∨ (s.videoCalls callId).isActive = false) :
    execOp (.start sender callId ts) s = (s, []) ∧
    execOp (.signal sender callId sd) s = (s, []) ∧
    execOp (.endv sender callId ts2) s = (s, []) ∧
    (opOk (startVideoCall sender' callId' ts' t) = true →
      isParticipant t sender' callId' ∧ (t.videoCalls callId').isActive = true ∧
        callId' < t.nextCallId) ∧
    (opOk (updateSignalingData sender' callId' sd' t) = true →
      isParticipant t sender' callId' ∧ (t.videoCalls callId').isActive = true ∧
        callId' < t.nextCallId) ∧
    (opOk (endVideoCall sender' callId' ts2' t) = true →
      isParticipant t sender' callId' ∧ (t.videoCalls callId').isActive = true ∧
        callId' < t.nextCallId) := by
  refine ⟨execOp_frame (.start sender callId ts) s (start_guard_fails sender callId ts s h),
          execOp_frame (.signal sender callId sd) s (signal_guard_fails sender callId sd s h),
          execOp_frame (.endv sender callId ts2) s (endv_guard_fails sender callId ts2 s h),
          ?_, ?_, ?_⟩
  · intro hok
    simp only [startVideoCall] at hok
    split_ifs at hok with h1 h2 h3
    · simp [opOk] at hok
    · simp [opOk] at hok
    · simp [opOk] at hok
    · simp at h1 h2 h3
      exact ⟨(or_iff_not_imp_left).mpr h2, h3.1, h1⟩
  · intro hok
    simp only [updateSignalingData] at hok
    split_ifs at hok with h1 h2 h3
    · simp [opOk] at hok
    · simp [opOk] at hok
    · simp [opOk] at hok
    · simp at h1 h2 h3
      exact ⟨(or_iff_not_imp_left).mpr h2, h3, h1⟩
  · intro hok
    simp only [endVideoCall] at hok
    split_ifs at hok with h1 h2 h3 h4
    · simp [opOk] at hok
    · simp [opOk] at hok
    · simp [opOk] at hok
    · simp [opOk] at hok
    · simp at h1 h2 h3
      exact ⟨(or_iff_not_imp_left).mpr h2, h3, h1⟩

/-- C8 (witness): at the responded state (call 1 active between users 1
and 2), caller 3 is not a participant: all three operations revert and
change nothing, and a successful start by participant 1 indeed implies the
guard conditions. -/
theorem c8_participant_active_guard_witness :
    execOp (.start 3 1 40) respondedState = (respondedState, []) ∧
    execOp (.signal 3 1 41) respondedState = (respondedState, []) ∧
    execOp (.endv 3 1 42) respondedState = (respondedState, []) := by
  have h := c8_participant_active_guard respondedState respondedState 3 1 1 1 40 41 42
      43 44 45 (Or.inl (by decide))
  exact ⟨h.1, h.2.1, h.2.2.1⟩

/-- C9.  Two successful `inviteToCall` calls by the same sender to the same
recipient at the same block timestamp derive the same invite id, so the
second call overwrites the invitation record — even one already accepted —
resetting `isAccepted` and `isDeclined` to `false`, after which the
invitation can be responded to again. -/
theorem c9_reinvite_resets (s : ContractState) (a b : Address)
    (k1 k2 ck1 sd1 ck2 sd2 ts ts1 ts2 : Nat)
    (hra : (s.userProfiles a).isRegistered = true)
    (hrb : (s.userProfiles b).isRegistered = true)
    (hab : ¬ b = a)
    (hblk : (s.userProfiles b).blockedUsers a = false) :
    computeInviteId a b ts = computeInviteId a b ts ∧
    opOk (inviteToCall a b k1 ts s) = true ∧
    opOk (acceptCallInvitation b (computeInviteId a b ts) ck1 sd1 ts1
      (c9s1 a b k1 ts s)) = true ∧
    ((c9s2 a b k1 ck1 sd1 ts ts1 s).callInvitations (computeInviteId a b ts)).isAccepted
      = true ∧
    opOk (inviteToCall a b k2 ts (c9s2 a b k1 ck1 sd1 ts ts1 s)) = true ∧
    (c9s3 a b k1 ck1 sd1 k2 ts ts1 s).callInvitations (computeInviteId a b ts)
      = ⟨a, b, k2, ts, false, false⟩ ∧
    opOk (acceptCallInvitation b (computeInviteId a b ts) ck2 sd2 ts2
      (c9s3 a b k1 ck1 sd1 k2 ts ts1 s)) = true := by
  refine ⟨rfl, ?_, ?_, ?_, ?_, ?_, ?_⟩ <;>
    simp [c9s1, c9s2, c9s3, execOp, opCall, inviteToCall, acceptCallInvitation,
      computeInviteId, opOk, hra, hrb, hab, hblk, Function.update_same]

/-- C9 (witness): with registered users 1 and 2, invite at timestamp 5,
accept, and re-invite at timestamp 5: the record is reset to an unresponded
invitation carrying the new key, and accepting again succeeds. -/
theorem c9_reinvite_resets_witness :
    opOk (inviteToCall 1 2 7 5 registeredPair) = true ∧
    (c9s3 1 2 7 9 9 8 5 6 registeredPair).callInvitations (1, 2, 5)
      = ⟨1, 2, 8, 5, false, false⟩ ∧
    opOk (acceptCallInvitation 2 (1, 2, 5) 10 11 12
      (c9s3 1 2 7 9 9 8 5 6 registeredPair)) = true := by
  have h := c9_reinvite_resets registeredPair 1 2 7 8 9 9 10 11 5 6 12
      (by decide) (by decide) (by decide) (by decide)
  exact ⟨h.2.1, h.2.2.2.2.2.1, h.2.2.2.2.2.2⟩

theorem freshBound_genesis (deployer : Address) : FreshBound (genesisState deployer) :=
  fun _ _ => rfl

theorem execOp_freshBound (op : Op) (s : ContractState) (hb : FreshBound s) :
    FreshBound (execOp op s).1 := by
  cases op with
  | register a pk st =>
    simp only [execOp, opCall, registerUser]
    split_ifs <;> exact hb
  | updateStatus a st =>
    simp only [execOp, opCall, updateUserStatus]
    split_ifs <;> exact hb
  | invite a b k ts =>
    simp only [execOp, opCall, inviteToCall]
    split_ifs <;> exact hb
  | decline a i =>
    simp only [execOp, opCall, declineCallInvitation]
    split_ifs <;> exact hb
  | addContact a b =>
    simp only [execOp, opCall, addTrustedContact]
    split_ifs <;> exact hb
  | blockU a b =>
    simp only [execOp, opCall, blockUser]
    split_ifs <;> exact hb
  | unblockU a b =>
    simp only [execOp, opCall, unblockUser]
    split_ifs <;> exact hb
  | accept a i ck sd ts =>
    simp only [execOp, opCall, acceptCallInvitation]
    split_ifs <;> try exact hb
    intro j hj
    have hj' : s.nextCallId + 1 ≤ j := hj
    show Function.update s.videoCalls s.nextCallId
      ⟨(s.callInvitations i).sender, a, ck, sd, true, false, ts, 0, 0⟩ j = VideoCall.zero
    rw [Function.update_noteq (by omega)]
    exact hb j (by omega)
  | start a c ts =>
    simp only [execOp, opCall, startVideoCall]
    split_ifs with h1 h2 h3 <;> try exact hb
    simp at h1
    intro j hj
    have hj' : s.nextCallId ≤ j := hj
    show Function.update s.videoCalls c _ j = VideoCall.zero
    rw [Function.update_noteq (by omega)]
    exact hb j hj'
  | signal a c d =>
    simp only [execOp, opCall, updateSignalingData]
    split_ifs with h1 h2 h3 <;> try exact hb
    simp at h1
    intro j hj
    have hj' : s.nextCallId ≤ j := hj
    show Function.update s.videoCalls c _ j = VideoCall.zero
    rw [Function.update_noteq (by omega)]
    exact hb j hj'
  | endv a c ts =>
    simp only [execOp, opCall, endVideoCall]
    split_ifs with h1 h2 h3 h4 <;> try exact hb
    simp at h1
    intro j hj
    have hj' : s.nextCallId ≤ j := hj
    show Function.update s.videoCalls c _ j = VideoCall.zero
    rw [Function.update_noteq (by omega)]
    exact hb j hj'

/-- A connected flag, once set on a written call record, survives every
external call. -/
theorem execOp_connected_mono (op : Op) (s : ContractState) (c : Nat)
    (hb : FreshBound s) (h : (s.videoCalls c).isConnected = true) :
    ((execOp op s).1.videoCalls c).isConnected = true := by
  cases op with
  | register a pk st =>
    simp only [execOp, opCall, registerUser]
    split_ifs <;> exact h
  | updateStatus a st =>
    simp only [execOp, opCall, updateUserStatus]
    split_ifs <;> exact h
  | invite a b k ts =>
    simp only [execOp, opCall, inviteToCall]
    split_ifs <;> exact h
  | decline a i =>
    simp only [execOp, opCall, declineCallInvitation]
    split_ifs <;> exact h
  | addContact a b =>
    simp only [execOp, opCall, addTrustedContact]
    split_ifs <;> exact h
  | blockU a b =>
    simp only [execOp, opCall, blockUser]
    split_ifs <;> exact h
  | unblockU a b =>
    simp only [execOp, opCall, unblockUser]
    split_ifs <;> exact h
  | accept a i ck sd ts =>
    simp only [execOp, opCall, acceptCallInvitation]
    split_ifs <;> try exact h
    show (Function.update s.videoCalls s.nextCallId
      ⟨(s.callInvitations i).sender, a, ck, sd, true, false, ts, 0, 0⟩ c).isConnected = true
    rcases Nat.lt_or_ge c s.nextCallId with hlt | hge
    · rw [Function.update_noteq (by omega)]
      exact h
    · rw [hb c hge] at h
      exact absurd h (by simp [VideoCall.zero])
  | start a c' ts =>
    simp only [execOp, opCall, startVideoCall]
    split_ifs with h1 h2 h3 <;> try exact h
    show (Function.update s.videoCalls c' _ c).isConnected = true
    by_cases hc : c = c'
    · subst hc
      rw [Function.update_same]
    · rw [Function.update_noteq hc]
      exact h
  | signal a c' d =>
    simp only [execOp, opCall, updateSignalingData]
    split_ifs with h1 h2 h3 <;> try exact h
    show (Function.update s.videoCalls c' _ c).isConnected = true
    by_cases hc : c = c'
    · subst hc
      rw [Function.update_same]
      exact h
    · rw [Function.update_noteq hc]
      exact h
  | endv a c' ts =>
    simp only [execOp, opCall, endVideoCall]
    split_ifs with h1 h2 h3 h4 <;> try exact h
    show (Function.update s.videoCalls c' _ c).isConnected = true
    by_cases hc : c = c'
    · subst hc
      rw [Function.update_same]
      exact h
    · rw [Function.update_noteq hc]
      exact h

theorem countStarted_append (c : Nat) (l1 l2 : List LedgerEvent) :
    countStarted c (l1 ++ l2) = countStarted c l1 + countStarted c l2 := by
  simp [countStarted, List.filter_append]

/-- Once a call is connected, no external call emits a further
`CallStarted` for it. -/
theorem execOp_no_start_when_connected (op : Op) (s : ContractState) (c : Nat)
    (h : (s.videoCalls c).isConnected = true) :
    countStarted c (execOp op s).2 = 0 := by
  cases op with
  | register a pk st =>
    simp only [execOp, opCall, registerUser]
    split_ifs <;> rfl
  | updateStatus a st =>
    simp only [execOp, opCall, updateUserStatus]
    split_ifs <;> rfl
  | invite a b k ts =>
    simp only [execOp, opCall, inviteToCall]
    split_ifs <;> rfl
  | accept a i ck sd ts =>
    simp only [execOp, opCall, acceptCallInvitation]
    split_ifs <;> rfl
  | decline a i =>
    simp only [execOp, opCall, declineCallInvitation]
    split_ifs <;> rfl
  | addContact a b =>
    simp only [execOp, opCall, addTrustedContact]
    split_ifs <;> rfl
  | blockU a b =>
    simp only [execOp, opCall, blockUser]
    split_ifs <;> rfl
  | unblockU a b =>
    simp only [execOp, opCall, unblockUser]
    split_ifs <;> rfl
  | signal a c' d =>
    simp only [execOp, opCall, updateSignalingData]
    split_ifs <;> rfl
  | endv a c' ts =>
    simp only [execOp, opCall, endVideoCall]
    split_ifs <;> rfl
  | start a c' ts =>
    simp only [execOp, opCall, startVideoCall]
    split_ifs with h1 h2 h3 <;> try rfl
    by_cases hc : c' = c
    · exfalso
      subst hc
      simp [h] at h3
    · show countStarted c [.callStarted c' (s.videoCalls c').initiator (s.videoCalls c').recipient] = 0
      simp [countStarted, isCallStartedFor, hc]

/-- One external call emits at most one `CallStarted` for a given id, and
if it does emit one, the id's record is connected afterwards. -/
theorem execOp_start_effect (op : Op) (s : ContractState) (c : Nat) :
    countStarted c (execOp op s).2 ≤ 1 ∧
    (1 ≤ countStarted c (execOp op s).2 →
      ((execOp op s).1.videoCalls c).isConnected = true) := by
  cases op with
  | register a pk st =>
    simp only [execOp, opCall, registerUser]
    split_ifs <;> exact ⟨by simp [countStarted, isCallStartedFor], by intro hx; simp [countStarted, isCallStartedFor] at hx⟩
  | updateStatus a st =>
    simp only [execOp, opCall, updateUserStatus]
    split_ifs <;> exact ⟨by simp [countStarted, isCallStartedFor], by intro hx; simp [countStarted, isCallStartedFor] at hx⟩
  | invite a b k ts =>
    simp only [execOp, opCall, inviteToCall]
    split_ifs <;> exact ⟨by simp [countStarted, isCallStartedFor], by intro hx; simp [countStarted, isCallStartedFor] at hx⟩
  | accept a i ck sd ts =>
    simp only [execOp, opCall, acceptCallInvitation]
    split_ifs <;> exact ⟨by simp [countStarted, isCallStartedFor], by intro hx; simp [countStarted, isCallStartedFor] at hx⟩
  | decline a i =>
    simp only [execOp, opCall, declineCallInvitation]
    split_ifs <;> exact ⟨by simp [countStarted, isCallStartedFor], by intro hx; simp [countStarted, isCallStartedFor] at hx⟩
  | addContact a b =>
    simp only [execOp, opCall, addTrustedContact]
    split_ifs <;> exact ⟨by simp [countStarted, isCallStartedFor], by intro hx; simp [countStarted, isCallStartedFor] at hx⟩
  | blockU a b =>
    simp only [execOp, opCall, blockUser]
    split_ifs <;> exact ⟨by simp [countStarted, isCallStartedFor], by intro hx; simp [countStarted, isCallStartedFor] at hx⟩
  | unblockU a b =>
    simp only [execOp, opCall, unblockUser]
    split_ifs <;> exact ⟨by simp [countStarted, isCallStartedFor], by intro hx; simp [countStarted, isCallStartedFor] at hx⟩
  | signal a c' d =>
    simp only [execOp, opCall, updateSignalingData]
    split_ifs <;> exact ⟨by simp [countStarted, isCallStartedFor], by intro hx; simp [countStarted, isCallStartedFor] at hx⟩
  | endv a c' ts =>
    simp only [execOp, opCall, endVideoCall]
    split_ifs <;> exact ⟨by simp [countStarted, isCallStartedFor], by intro hx; simp [countStarted, isCallStartedFor] at hx⟩
  | start a c' ts =>
    simp only [execOp, opCall, startVideoCall]
    split_ifs with h1 h2 h3
    · exact ⟨by simp [countStarted, isCallStartedFor], by intro hx; simp [countStarted, isCallStartedFor] at hx⟩
    · exact ⟨by simp [countStarted, isCallStartedFor], by intro hx; simp [countStarted, isCallStartedFor] at hx⟩
    · exact ⟨by simp [countStarted, isCallStartedFor], by intro hx; simp [countStarted, isCallStartedFor] at hx⟩
    · by_cases hc : c' = c
      · subst hc
        constructor
        · show countStarted c' [.callStarted c' (s.videoCalls c').initiator (s.videoCalls c').recipient] ≤ 1
          simp [countStarted, isCallStartedFor]
        · intro hx
          show (Function.update s.videoCalls c' _ c').isConnected = true
          rw [Function.update_same]
      · constructor
        · show countStarted c [.callStarted c' (s.videoCalls c').initiator (s.videoCalls c').recipient] ≤ 1
          simp [countStarted, isCallStartedFor, hc]
        · intro hx
          exfalso
          have hzero : countStarted c
              [.callStarted c' (s.videoCalls c').initiator (s.videoCalls c').recipient] = 0 := by
            simp [countStarted, isCallStartedFor, hc]
          have : (1 : Nat) ≤ 0 := by
            calc (1 : Nat) ≤ _ := hx
            _ = 0 := hzero
          omega

theorem execOps_freshBound (ops : List Op) (s : ContractState) (hb : FreshBound s) :
    FreshBound (execOps ops s).1 := by
  induction ops generalizing s with
  | nil => exact hb
  | cons op rest ih =>
    simp only [execOps]
    exact ih (execOp op s).1 (execOp_freshBound op s hb)

theorem execOps_no_start_when_connected (ops : List Op) (s : ContractState) (c : Nat)
    (hb : FreshBound s) (h : (s.videoCalls c).isConnected = true) :
    countStarted c (execOps ops s).2 = 0 := by
  induction ops generalizing s with
  | nil => rfl
  | cons op rest ih =>
    simp only [execOps, countStarted_append]
    rw [execOp_no_start_when_connected op s c h,
      ih (execOp op s).1 (execOp_freshBound op s hb) (execOp_connected_mono op s c hb h)]

theorem execOps_start_le_one (ops : List Op) (s : ContractState) (c : Nat)
    (hb : FreshBound s) : countStarted c (execOps ops s).2 ≤ 1 := by
  induction ops generalizing s with
  | nil => simp [execOps, countStarted]
  | cons op rest ih =>
    have heff := execOp_start_effect op s c
    have hb' := execOp_freshBound op s hb
    simp only [execOps, countStarted_append]
    rcases Nat.eq_zero_or_pos (countStarted c (execOp op s).2) with h0 | hpos
    · have hrest := ih (execOp op s).1 hb'
      omega
    · have hconn := heff.2 hpos
      have hrest := execOps_no_start_when_connected rest (execOp op s).1 c hb' hconn
      omega

/-- C10.  Over any sequence of external calls from the freshly deployed
contract, at most one `CallStarted` event is ever emitted for a given call
id: a successful startVideoCall sets `isConnected`, and startVideoCall
always reverts on a connected record. -/
theorem c10_at_most_one_start (deployer : Address) (ops : List Op) (callId : Nat)
    (s : ContractState) (sender : Address) (ts : Nat) :
    countStarted callId (execOps ops (genesisState deployer)).2 ≤ 1 ∧
    ((s.videoCalls callId).isConnected = true →
      opOk (startVideoCall sender callId ts s) = false) ∧
    (opOk (startVideoCall sender callId ts s) = true →
      ((execOp (.start sender callId ts) s).1.videoCalls callId).isConnected = true) := by
  refine ⟨execOps_start_le_one ops (genesisState deployer) callId
    (freshBound_genesis deployer), ?_, ?_⟩
  · intro hconn
    simp only [startVideoCall]
    split_ifs with h1 h2 h3
    · rfl
    · rfl
    · rfl
    · exfalso
      simp [hconn] at h3
  · intro hok
    simp only [execOp, opCall, startVideoCall] at hok ⊢
    split_ifs at hok ⊢ with h1 h2 h3
    · simp [opOk] at hok
    · simp [opOk] at hok
    · simp [opOk] at hok
    · show (Function.update s.videoCalls callId _ callId).isConnected = true
      rw [Function.update_same]

end Contract
